import Mathlib

/-!
Shallow embedding of `src/Task.cpp` (Fawry-Challenge): a point-of-sale
checkout flow with products, a cart, a customer balance, shipping-cost
computation and console output.

Modelling conventions:
* C++ `double` values (prices, weights, balances) are modelled as `ℚ`.
* C++ `int` quantities are modelled as `ℤ` (no overflow is relevant to the
  claims; all inputs considered are small).
* The four C++ product classes (`Product`, `ExpirableProduct`,
  `ShippableProduct`, `ExpirableShippableProduct`) are observably a record
  with an optional expiry timestamp and an optional weight: `isExpired`
  compares the current time against the expiry date when one is present
  (`Task.cpp:33,51`), and `isShippable` together with the
  `dynamic_cast<Shippable*>` succeeds exactly for the two weighted classes
  (`Task.cpp:34,62,74,147-148`).
* `shared_ptr<Product>` aliasing is modelled by a store (`List Product`)
  indexed by `Nat`; a cart line holds an index into the store.
* `time(nullptr)` is passed in as an explicit parameter `now`.
* C++ exceptions are `Except String`; a thrown exception leaves all state
  as it was (the model returns `.error` before constructing any new state).
* Console output is a token list; each printed floating-point number is
  recorded together with the `std::cout` formatting flags (`fixed`,
  precision) in force at the moment it is streamed, since `setprecision` /
  `fixed` persist on the stream across calls (`Task.cpp:88,124`).
  `std::cout` starts as not-fixed with precision 6.
-/

/-- A product record: name, unit price, quantity on hand, optional expiry
date and optional shipping weight (`Task.cpp:24-77`). -/
structure Product where
  name : String
  price : ℚ
  quantity : ℤ
  expiry : Option ℤ
  weight : Option ℚ
  deriving DecidableEq, Repr

instance : Inhabited Product := ⟨⟨"", 0, 0, none, none⟩⟩

namespace Product

/-- Source `isExpired` (`Task.cpp:33,51`): products without an expiry date are
never expired; an expirable product is expired when `now > expiryDate`. -/
def isExpired (now : ℤ) (p : Product) : Bool :=
  match p.expiry with
  | none => false
  | some e => now > e

/-- Source `isShippable` (`Task.cpp:34,62,74`): exactly the weighted classes. -/
def isShippable (p : Product) : Bool := p.weight.isSome

/-- Source `reduceQuantity` (`Task.cpp:39`): unchecked decrement. -/
def reduceQuantity (amount : ℤ) (p : Product) : Product :=
  { p with quantity := p.quantity - amount }

end Product

/-- The catalog of products; a `shared_ptr<Product>` is an index into it. -/
abbrev Store := List Product

/-- Dereference a product pointer. Cart lines built by the program always
hold valid indices; the default product is only a total-function filler. -/
def getP : Store → Nat → Product
  | [], _ => default
  | p :: _, 0 => p
  | _ :: ps, n + 1 => getP ps n

/-- Point update of the store (mutation through a `shared_ptr`). -/
def updateStore : Store → Nat → (Product → Product) → Store
  | [], _, _ => []
  | p :: ps, 0, f => f p :: ps
  | p :: ps, n + 1, f => p :: updateStore ps n f

/-- Source `Customer` (`Task.cpp:80-90`). -/
structure Customer where
  name : String
  balance : ℚ
  deriving DecidableEq, Repr

namespace Customer

/-- Source `Customer::pay` (`Task.cpp:86`). -/
def pay (amount : ℚ) (c : Customer) : Customer :=
  { c with balance := c.balance - amount }

end Customer

/-- Source `CartItem` (`Task.cpp:93-96`): a product reference and a quantity. -/
structure CartItem where
  pid : Nat
  qty : ℤ
  deriving DecidableEq, Repr

/-- Source `Cart` (`Task.cpp:99-112`): the ordered line-item vector. -/
abbrev Cart := List CartItem

namespace Cart

/-- Source `Cart::add` (`Task.cpp:102-107`): throws when `quantity` exceeds the
product's current stock, otherwise appends a line. The state of the
operation is (store, cart); the store is returned unchanged because `add`
only reads the product. -/
def add (s : Store) (c : Cart) (pid : Nat) (quantity : ℤ) :
    Except String (Store × Cart) :=
  if quantity > (getP s pid).quantity then
    .error ("Not enough stock for: " ++ (getP s pid).name)
  else
    .ok (s, c ++ [⟨pid, quantity⟩])

/-- Source `Cart::isEmpty` (`Task.cpp:110`). -/
def isEmpty (c : Cart) : Bool := List.isEmpty c

end Cart

/-- The `std::cout` state relevant to the program: the `fixed` flag and the
precision. `std::cout` starts with `(false, 6)`. -/
structure StreamState where
  fixedFlag : Bool
  prec : Nat
  deriving DecidableEq, Repr

/-- The stream state of a fresh `std::cout`. -/
def initialStream : StreamState := ⟨false, 6⟩

/-- One console output token: either literal text, or a floating-point
number recorded with the stream flags in force when it was printed. -/
inductive OutTok where
  | str (s : String)
  | num (value : ℚ) (fixedFlag : Bool) (prec : Nat)
  deriving DecidableEq, Repr

/-- The C++ `int(double)` truncation toward zero, used for the grams display
(`Task.cpp:150`). -/
def truncInt (q : ℚ) : ℤ :=
  if 0 ≤ q then ⌊q⌋ else -⌊-q⌋

/-- Source `ShippingService::shipItems` (`Task.cpp:117-125`): prints the notice
header, each description line, then sets `fixed`/`setprecision(1)` and
prints the total weight. The stream is left in the `(fixed, 1)` state. -/
def shipItems (items : List (String × ℚ)) : StreamState × List OutTok :=
  let totalWeight := (items.map Prod.snd).sum
  (⟨true, 1⟩,
    [.str "** Shipment notice **"]
      ++ items.map (fun it => .str it.1)
      ++ [.str "Total package weight ", .num totalWeight true 1, .str "kg"])

/-- Source `Customer::showBalance` (`Task.cpp:87-89`): sets `fixed` and
`setprecision(2)` and prints the balance. -/
def showBalance (c : Customer) : StreamState × List OutTok :=
  (⟨true, 2⟩, [.str "Customer Balance: ", .num c.balance true 2])

/-- The shipment-line description string (`Task.cpp:150`):
`"<qty>x <name>    <int(weight*1000)>g"`. -/
def shipDesc (qty : ℤ) (name : String) (lineWeight : ℚ) : String :=
  toString qty ++ "x " ++ name ++ "    " ++ toString (truncInt (lineWeight * 1000)) ++ "g"

/-- The validation-and-accumulation loop of `checkout` (`Task.cpp:136-155`):
per line, in insertion order, fail if the product is expired, then fail if
the requested quantity exceeds current stock; otherwise accumulate the
subtotal, and for shippable products the shipment line and the shipping
cost (`weight*qty*10`). -/
def validateLoop (now : ℤ) (s : Store) : Cart → Except String (ℚ × ℚ × List (String × ℚ))
  | [] => .ok (0, 0, [])
  | item :: rest =>
    let p := getP s item.pid
    if p.isExpired now then
      .error (p.name ++ " is expired.")
    else if item.qty > p.quantity then
      .error ("Insufficient stock: " ++ p.name)
    else
      match validateLoop now s rest with
      | .error e => .error e
      | .ok (sub, ship, lines) =>
        match p.weight with
        | some w =>
          let lineWeight := w * (item.qty : ℚ)
          .ok (p.price * (item.qty : ℚ) + sub,
               lineWeight * 10 + ship,
               (shipDesc item.qty p.name lineWeight, lineWeight) :: lines)
        | none =>
          .ok (p.price * (item.qty : ℚ) + sub, ship, lines)

/-- The settlement fold of `checkout` (`Task.cpp:166-170`): every line's
product quantity is reduced by the requested quantity. -/
def applyReductions (s : Store) (c : Cart) : Store :=
  c.foldl (fun acc item => updateStore acc item.pid (Product.reduceQuantity item.qty)) s

/-- The receipt body (`Task.cpp:166-170`): per line, the quantity, the
name and the line total, printed under the current stream flags. Only
`name` and `price` are read from the store and neither is mutated by the
interleaved `reduceQuantity`, so reading the pre-settlement store is
observably identical to the source's interleaving. -/
def receiptLines (s : Store) (c : Cart) (st : StreamState) : List OutTok :=
  c.flatMap (fun item =>
    [.str (toString item.qty ++ "x " ++ (getP s item.pid).name ++ "    "),
     .num ((getP s item.pid).price * (item.qty : ℚ)) st.fixedFlag st.prec])

/-- The console output of a successful checkout (`Task.cpp:162-178`): the
shipment notice when there are shippable lines (which leaves the stream in
the `(fixed, 1)` state), the receipt header and body, the three totals
printed under the stream flags then in force, and the closing balance
line. -/
def successOutput (st : StreamState) (s : Store) (cart : Cart)
    (subtotal shippingCost : ℚ) (shippingItems : List (String × ℚ))
    (customerAfter : Customer) : List OutTok :=
  let stOut1 := if shippingItems.isEmpty then (st, ([] : List OutTok))
                else shipItems shippingItems
  stOut1.2
    ++ [.str "** Checkout receipt **"] ++ receiptLines s cart stOut1.1
    ++ [.str "----------------------",
        .str "Subtotal         ", .num subtotal stOut1.1.fixedFlag stOut1.1.prec,
        .str "Shipping         ", .num shippingCost stOut1.1.fixedFlag stOut1.1.prec,
        .str "Amount           ", .num (subtotal + shippingCost) stOut1.1.fixedFlag stOut1.1.prec]
    ++ (showBalance customerAfter).2

/-- Source `checkout` (`Task.cpp:129-180`). Fails on an empty cart, then runs the
validation loop, then the funds check; on success emits the shipment
notice (when there are shippable lines) and the receipt, settles stock and
balance, prints the balance and clears the cart. An `.error` result models
a thrown exception: no state was modified. -/
def checkout (now : ℤ) (st : StreamState) (s : Store) (customer : Customer)
    (cart : Cart) : Except String (Store × Customer × Cart × StreamState × List OutTok) :=
  if Cart.isEmpty cart then .error "Cart is empty."
  else
    match validateLoop now s cart with
    | .error e => .error e
    | .ok (subtotal, shippingCost, shippingItems) =>
      let total := subtotal + shippingCost
      if customer.balance < total then .error "Customer balance is insufficient."
      else
        let customer' := customer.pay total
        .ok (applyReductions s cart, customer', [], (showBalance customer').1,
             successOutput st s cart subtotal shippingCost shippingItems customer')

/-- The caller's view of a checkout attempt (`Task.cpp:193-200`): the
exception is caught, and on failure every piece of state is as before the
call. -/
def checkoutRun (now : ℤ) (st : StreamState) (s : Store) (customer : Customer)
    (cart : Cart) : (Store × Customer × Cart) × Option String :=
  match checkout now st s customer cart with
  | .error e => ((s, customer, cart), some e)
  | .ok (s', customer', cart', _, _) => ((s', customer', cart'), none)

/-! Specification-side summations (the quantities the spec's testable
properties speak about): the subtotal as the sum of `unitPrice * qty` over
all lines, the total shippable weight as the sum of `weight * qty` over
the shippable lines, and the shipment-line list. -/

/-- Sum of `unitPrice * requestedQuantity` over all cart lines. -/
def subSum (s : Store) : Cart → ℚ
  | [] => 0
  | it :: rest => (getP s it.pid).price * (it.qty : ℚ) + subSum s rest

/-- Sum of `weight * requestedQuantity` over the shippable cart lines. -/
def shipWeightSum (s : Store) : Cart → ℚ
  | [] => 0
  | it :: rest =>
    (match (getP s it.pid).weight with
     | some w => w * (it.qty : ℚ)
     | none => 0) + shipWeightSum s rest

/-- The shipment lines (description, line weight) of the shippable cart
lines, in cart order. -/
def shipList (s : Store) : Cart → List (String × ℚ)
  | [] => []
  | it :: rest =>
    match (getP s it.pid).weight with
    | some w =>
      (shipDesc it.qty (getP s it.pid).name (w * (it.qty : ℚ)), w * (it.qty : ℚ)) :: shipList s rest
    | none => shipList s rest

/-- Total requested quantity that a cart directs at the product at index
`i` (summed over all lines referencing `i`). -/
def lineQty : Cart → Nat → ℤ
  | [], _ => 0
  | it :: rest, i => (if it.pid = i then it.qty else 0) + lineQty rest i

/-- The store component of a checkout result (the catalog after the call;
on failure nothing was mutated, so the result is the input store). -/
def storeAfter (s : Store)
    (r : Except String (Store × Customer × Cart × StreamState × List OutTok)) : Store :=
  match r with
  | .error _ => s
  | .ok (s', _, _, _, _) => s'

/-- The output tokens of a checkout result (empty on failure). -/
def outputOf (r : Except String (Store × Customer × Cart × StreamState × List OutTok)) :
    List OutTok :=
  match r with
  | .error _ => []
  | .ok (_, _, _, _, out) => out

/-- The catalog constructed in `main` (`Task.cpp:185-188`), taking the
current time as `0` so that `tomorrow = 86400`. -/
def demoStore : Store :=
  [⟨"Cheese", 100, 10, some 86400, some (2/10)⟩,
   ⟨"Biscuits", 150, 5, some 86400, some (7/10)⟩,
   ⟨"TV", 5000, 3, none, some 10⟩,
   ⟨"Scratch Card", 50, 100, none, none⟩]

section Lemmas

/-- A nonempty list is not `isEmpty`. -/
theorem isEmpty_false_of_ne_nil {c : Cart} (h : c ≠ []) : Cart.isEmpty c = false := by
  cases c with
  | nil => exact absurd rfl h
  | cons a l => rfl

/-- Reading the store after a point update. -/
theorem getP_updateStore (s : Store) (j : Nat) (f : Product → Product) (i : Nat) :
    getP (updateStore s j f) i =
      if j = i ∧ i < s.length then f (getP s i) else getP s i := by
  induction s generalizing j i with
  | nil => simp [updateStore]
  | cons p ps ih =>
    cases j with
    | zero =>
      cases i with
      | zero => simp [updateStore, getP]
      | succ n => simp [updateStore, getP]
    | succ m =>
      cases i with
      | zero => simp [updateStore, getP]
      | succ n =>
        simp only [updateStore, getP, ih, List.length_cons]
        by_cases h : m = n ∧ n < ps.length
        · rw [if_pos h, if_pos ⟨by omega, by omega⟩]
        · rw [if_neg h, if_neg (by omega)]

/-- Point updates preserve the store's length. -/
theorem length_updateStore (s : Store) (j : Nat) (f : Product → Product) :
    (updateStore s j f).length = s.length := by
  induction s generalizing j with
  | nil => rfl
  | cons p ps ih =>
    cases j with
    | zero => rfl
    | succ m => simp [updateStore, ih]

/-- After the settlement fold, each in-range product's quantity has been
reduced by the total quantity the cart requested of it. -/
theorem quantity_applyReductions (c : Cart) (s : Store) (i : Nat) (hi : i < s.length) :
    (getP (applyReductions s c) i).quantity = (getP s i).quantity - lineQty c i := by
  induction c generalizing s with
  | nil => simp [applyReductions, lineQty]
  | cons it rest ih =>
    have hlen : i < (updateStore s it.pid (Product.reduceQuantity it.qty)).length := by
      rw [length_updateStore]; exact hi
    have step : applyReductions s (it :: rest) =
        applyReductions (updateStore s it.pid (Product.reduceQuantity it.qty)) rest := rfl
    rw [step, ih _ hlen, getP_updateStore]
    by_cases h : it.pid = i
    · rw [if_pos ⟨h, hi⟩]
      simp [Product.reduceQuantity, lineQty, h]
      omega
    · rw [if_neg (by tauto)]
      simp [lineQty, h]

end Lemmas

section CheckoutLemmas

/-- When every line of the cart passes both per-line checks, the
validation loop succeeds and computes exactly the spec-side sums. -/
theorem validateLoop_ok_of_pass (now : ℤ) (s : Store) (c : Cart)
    (h : ∀ it ∈ c, (getP s it.pid).isExpired now = false ∧ it.qty ≤ (getP s it.pid).quantity) :
    validateLoop now s c = .ok (subSum s c, 10 * shipWeightSum s c, shipList s c) := by
  induction c with
  | nil => simp [validateLoop, subSum, shipWeightSum, shipList]
  | cons it rest ih =>
    have hhead := h it (List.mem_cons_self it rest)
    have hrest := ih (fun x hx => h x (List.mem_cons_of_mem it hx))
    have hnotlt : ¬ (getP s it.pid).quantity < it.qty := not_lt.mpr hhead.2
    cases hw : (getP s it.pid).weight with
    | none =>
      simp only [validateLoop, hhead.1, hrest, hw, subSum, shipWeightSum, shipList,
        Bool.false_eq_true, if_false, gt_iff_lt, hnotlt]
      ring_nf
    | some w =>
      simp only [validateLoop, hhead.1, hrest, hw, subSum, shipWeightSum, shipList,
        Bool.false_eq_true, if_false, gt_iff_lt, hnotlt]
      have harith : w * (it.qty : ℚ) * 10 + 10 * shipWeightSum s rest =
          10 * (w * (it.qty : ℚ) + shipWeightSum s rest) := by ring
      rw [harith]

/-- A prefix in which every line passes both checks does not change the
error a failing tail produces. -/
theorem validateLoop_append_error (now : ℤ) (s : Store) (pre rest : Cart) (e : String)
    (hpre : ∀ it ∈ pre, (getP s it.pid).isExpired now = false ∧ it.qty ≤ (getP s it.pid).quantity)
    (hrest : validateLoop now s rest = .error e) :
    validateLoop now s (pre ++ rest) = .error e := by
  induction pre with
  | nil => simpa using hrest
  | cons it pre' ih =>
    have hhead := hpre it (List.mem_cons_self it pre')
    have hpre' := ih (fun x hx => hpre x (List.mem_cons_of_mem it hx))
    have hnotlt : ¬ (getP s it.pid).quantity < it.qty := not_lt.mpr hhead.2
    simp only [List.cons_append, validateLoop, hhead.1, Bool.false_eq_true, if_false,
      gt_iff_lt, hnotlt, List.append_eq, hpre']

/-- Unfolding a successful checkout. -/
theorem checkout_eq_ok (now : ℤ) (st : StreamState) (s : Store) (customer : Customer)
    (cart : Cart) (sub ship : ℚ) (lines : List (String × ℚ))
    (h1 : cart ≠ [])
    (h2 : validateLoop now s cart = .ok (sub, ship, lines))
    (h3 : ¬ customer.balance < sub + ship) :
    checkout now st s customer cart =
      .ok (applyReductions s cart, customer.pay (sub + ship), [], ⟨true, 2⟩,
           successOutput st s cart sub ship lines (customer.pay (sub + ship))) := by
  simp only [checkout, isEmpty_false_of_ne_nil h1, Bool.false_eq_true, if_false, h2, h3,
    showBalance]

/-- Unfolding a checkout whose validation loop fails. -/
theorem checkout_eq_error_of_validate (now : ℤ) (st : StreamState) (s : Store)
    (customer : Customer) (cart : Cart) (e : String)
    (h1 : cart ≠ [])
    (h2 : validateLoop now s cart = .error e) :
    checkout now st s customer cart = .error e := by
  simp only [checkout, isEmpty_false_of_ne_nil h1, Bool.false_eq_true, if_false, h2]

end CheckoutLemmas

/-- C6: checkout on a cart with no line items fails with the EmptyCart
error for every time, stream state, catalog and customer — no validation
is consulted and no output is emitted. -/
theorem checkout_empty_cart_fails (now : ℤ) (st : StreamState) (s : Store)
    (customer : Customer) :
    checkout now st s customer [] = .error "Cart is empty."
    ∧ outputOf (checkout now st s customer []) = [] :=
  ⟨rfl, rfl⟩

/-- C4: `Cart::add` fails with the InsufficientStock error exactly when
the requested quantity exceeds the product's quantity on hand at call
time; on failure the store and cart are untouched (an exception is thrown
before any mutation), and on success it returns the unchanged store with
exactly one line appended. -/
theorem cart_add_characterization (s : Store) (c : Cart) (pid : Nat) (q : ℤ) :
    (Cart.add s c pid q = .error ("Not enough stock for: " ++ (getP s pid).name) ↔
      (getP s pid).quantity < q)
    ∧ (Cart.add s c pid q = .ok (s, c ++ [⟨pid, q⟩]) ↔ q ≤ (getP s pid).quantity) := by
  refine ⟨?_, ?_⟩ <;> by_cases h : (getP s pid).quantity < q
  · simp [Cart.add, h]
  · simp [Cart.add, h]
  · simp [Cart.add, h, not_le.mpr h]
  · simp [Cart.add, h, not_lt.mp h]

/-- C4 witness: with the demo catalog, adding 4 TVs (stock 3) fails with
the stock error, and adding 3 TVs succeeds and appends the line. -/
theorem cart_add_characterization_witness :
    Cart.add demoStore [] 2 4 = .error ("Not enough stock for: " ++ (getP demoStore 2).name)
    ∧ Cart.add demoStore [] 2 3 = .ok (demoStore, [] ++ [⟨2, 3⟩]) :=
  ⟨(cart_add_characterization demoStore [] 2 4).1.mpr (by decide),
   (cart_add_characterization demoStore [] 2 3).2.mpr (by decide)⟩

/-- C9 counterexample: `Cart::add` performs no positivity check — adding
zero Scratch Cards, and then minus two Scratch Cards, both succeed, so a
cart produced only by `add` can contain lines whose requested quantity is
not strictly positive. -/
theorem cart_add_accepts_nonpositive :
    Cart.add demoStore [] 3 0 = .ok (demoStore, [⟨3, 0⟩])
    ∧ Cart.add demoStore [⟨3, 0⟩] 3 (-2) = .ok (demoStore, [⟨3, 0⟩, ⟨3, -2⟩]) :=
  ⟨rfl, rfl⟩

/-- C9 (amended): the only check `Cart::add` performs is the stock bound:
every quantity `q ≤ quantityOnHand` — including zero and negative
quantities — is accepted and appended as the line `⟨pid, q⟩`. Lines of an
add-built cart therefore satisfy `qty ≤ stock-at-add-time` but need not
be positive. -/
theorem cart_add_only_stock_check (s : Store) (c : Cart) (pid : Nat) (q : ℤ)
    (h : q ≤ (getP s pid).quantity) :
    Cart.add s c pid q = .ok (s, c ++ [⟨pid, q⟩]) := by
  simp [Cart.add, not_lt.mpr h]

/-- C9 (amended) witness: a negative quantity within stock is accepted. -/
theorem cart_add_only_stock_check_witness :
    (-2 : ℤ) ≤ (getP demoStore 3).quantity
    ∧ Cart.add demoStore [] 3 (-2) = .ok (demoStore, [] ++ [⟨3, -2⟩]) :=
  ⟨by decide, cart_add_only_stock_check demoStore [] 3 (-2) (by decide)⟩

/-- C2 at the failing input: a product with `quantityOnHand = 2` and a
cart holding two lines of 2 for that same product passes checkout (each
line is validated against the un-decremented stock), leaving
`quantityOnHand = -2`, which is negative. -/
theorem checkout_negative_stock_bug :
    (checkout 0 initialStream [⟨"Gadget", 100, 2, none, none⟩] ⟨"Rich", 1000⟩
        [⟨0, 2⟩, ⟨0, 2⟩]).isOk = true
    ∧ (getP (storeAfter [⟨"Gadget", 100, 2, none, none⟩]
        (checkout 0 initialStream [⟨"Gadget", 100, 2, none, none⟩] ⟨"Rich", 1000⟩
          [⟨0, 2⟩, ⟨0, 2⟩])) 0).quantity = -2 := by
  have hv := validateLoop_ok_of_pass 0 [⟨"Gadget", 100, 2, none, none⟩]
    [⟨0, 2⟩, ⟨0, 2⟩] (by decide)
  have hfunds : ¬ (Customer.mk "Rich" 1000).balance <
      subSum [⟨"Gadget", 100, 2, none, none⟩] [⟨0, 2⟩, ⟨0, 2⟩]
        + 10 * shipWeightSum [⟨"Gadget", 100, 2, none, none⟩] [⟨0, 2⟩, ⟨0, 2⟩] := by
    norm_num [subSum, shipWeightSum, getP]
  have h := checkout_eq_ok 0 initialStream [⟨"Gadget", 100, 2, none, none⟩] ⟨"Rich", 1000⟩
    [⟨0, 2⟩, ⟨0, 2⟩] _ _ _ (by simp) hv hfunds
  refine ⟨by rw [h]; rfl, ?_⟩
  have hstore : storeAfter [⟨"Gadget", 100, 2, none, none⟩]
      (checkout 0 initialStream [⟨"Gadget", 100, 2, none, none⟩] ⟨"Rich", 1000⟩
        [⟨0, 2⟩, ⟨0, 2⟩]) =
      applyReductions [⟨"Gadget", 100, 2, none, none⟩] [⟨0, 2⟩, ⟨0, 2⟩] := by
    rw [h]; rfl
  rw [hstore, quantity_applyReductions [⟨0, 2⟩, ⟨0, 2⟩] [⟨"Gadget", 100, 2, none, none⟩]
    0 (by decide)]
  decide

/-- C10: neither add-time nor checkout-time validation aggregates the
lines that reference one product: `add` succeeds exactly when the new
line's quantity fits the current stock, whatever lines the cart already
holds for that product, and a two-line cart for one product checks out
whenever each line individually fits the stock and the funds suffice —
even when the two quantities together exceed the stock. -/
theorem add_checkout_no_aggregation (now : ℤ) (st : StreamState) (s : Store)
    (customer : Customer) (c : Cart) (pid : Nat) (q q1 q2 : ℤ) :
    (Cart.add s c pid q = .ok (s, c ++ [⟨pid, q⟩]) ↔ q ≤ (getP s pid).quantity)
    ∧ ((getP s pid).isExpired now = false → q1 ≤ (getP s pid).quantity →
        q2 ≤ (getP s pid).quantity →
        subSum s [⟨pid, q1⟩, ⟨pid, q2⟩] + 10 * shipWeightSum s [⟨pid, q1⟩, ⟨pid, q2⟩]
          ≤ customer.balance →
        (checkout now st s customer [⟨pid, q1⟩, ⟨pid, q2⟩]).isOk = true) := by
  constructor
  · by_cases h : (getP s pid).quantity < q
    · simp [Cart.add, h, not_le.mpr h]
    · simp [Cart.add, h, not_lt.mp h]
  · intro hexp h1 h2 hbal
    have hv := validateLoop_ok_of_pass now s [⟨pid, q1⟩, ⟨pid, q2⟩] (by
      intro it hit
      rcases List.mem_cons.mp hit with rfl | hit2
      · exact ⟨hexp, h1⟩
      · rcases List.mem_cons.mp hit2 with rfl | hit3
        · exact ⟨hexp, h2⟩
        · exact absurd hit3 (List.not_mem_nil it))
    rw [checkout_eq_ok now st s customer [⟨pid, q1⟩, ⟨pid, q2⟩] _ _ _
      (by simp) hv (not_lt.mpr hbal)]
    rfl

/-- C10 witness: two lines of 2 TVs each (stock 3, so the aggregate 4
exceeds the stock) still check out for a sufficiently rich customer. -/
theorem add_checkout_no_aggregation_witness :
    (checkout 0 initialStream demoStore ⟨"Mona", 100000⟩ [⟨2, 2⟩, ⟨2, 2⟩]).isOk = true :=
  (add_checkout_no_aggregation 0 initialStream demoStore ⟨"Mona", 100000⟩ [] 2 0 2 2).2
    (by decide) (by decide) (by decide)
    (by norm_num [subSum, shipWeightSum, getP, demoStore])

/-- Inversion of a successful checkout: the cart was cleared, the store is
the settlement fold, and the customer paid the computed total; the output
is the success output. -/
theorem checkout_ok_inv (now : ℤ) (st : StreamState) (s : Store) (customer : Customer)
    (cart : Cart) (s' : Store) (customer' : Customer) (cart' : Cart) (st' : StreamState)
    (out : List OutTok)
    (h : checkout now st s customer cart = .ok (s', customer', cart', st', out)) :
    cart' = [] ∧ s' = applyReductions s cart
    ∧ ∃ sub ship lines, validateLoop now s cart = .ok (sub, ship, lines)
        ∧ customer' = customer.pay (sub + ship)
        ∧ ¬ customer.balance < sub + ship
        ∧ out = successOutput st s cart sub ship lines customer' := by
  unfold checkout at h
  split at h
  · exact absurd h (by simp)
  · split at h
    · exact absurd h (by simp)
    · next sub ship lines heq =>
      dsimp only at h
      split at h
      · exact absurd h (by simp)
      · next hb =>
        simp only [Except.ok.injEq, Prod.mk.injEq] at h
        obtain ⟨hs, hc, hcart, hst, hout⟩ := h
        refine ⟨hcart.symm, hs.symm, sub, ship, lines, heq, hc.symm, hb, ?_⟩
        rw [← hc, ← hout]

/-- C1: checkout is all-or-nothing. On any failure (empty cart, expired
product, insufficient stock or insufficient funds — any `.error` result)
the caller observes exactly the store, customer and cart it passed in: no
product quantity, no balance, no cart line was touched. On success the
cart is cleared, every in-range product's quantity has been reduced by
the total quantity the cart requested of it, and the customer was charged
exactly the computed total `subtotal + shippingCost`. -/
theorem checkout_all_or_nothing (now : ℤ) (st : StreamState) (s : Store)
    (customer : Customer) (cart : Cart) :
    (∀ e, checkout now st s customer cart = .error e →
      checkoutRun now st s customer cart = ((s, customer, cart), some e))
    ∧ (∀ s' customer' cart' st' out,
        checkout now st s customer cart = .ok (s', customer', cart', st', out) →
        cart' = []
        ∧ (∀ i, i < s.length →
            (getP s' i).quantity = (getP s i).quantity - lineQty cart i)
        ∧ ∃ sub ship lines, validateLoop now s cart = .ok (sub, ship, lines)
            ∧ customer' = customer.pay (sub + ship)) := by
  constructor
  · intro e he
    simp [checkoutRun, he]
  · intro s' customer' cart' st' out h
    obtain ⟨hcart, hs, sub, ship, lines, hv, hc, _, _⟩ :=
      checkout_ok_inv now st s customer cart s' customer' cart' st' out h
    refine ⟨hcart, ?_, sub, ship, lines, hv, hc⟩
    intro i hi
    rw [hs]
    exact quantity_applyReductions cart s i hi

/-- C1 witness: a concrete successful checkout of two Scratch Cards, with
the conclusions of the all-or-nothing theorem instantiated at it. -/
theorem checkout_all_or_nothing_witness :
    ([] : Cart) = []
    ∧ (∀ i, i < demoStore.length →
        (getP (applyReductions demoStore [⟨3, 2⟩]) i).quantity =
          (getP demoStore i).quantity - lineQty [⟨3, 2⟩] i)
    ∧ ∃ sub ship lines, validateLoop 0 demoStore [⟨3, 2⟩] = .ok (sub, ship, lines)
        ∧ Customer.pay (subSum demoStore [⟨3, 2⟩] + 10 * shipWeightSum demoStore [⟨3, 2⟩])
            ⟨"Walid", 500⟩ = Customer.pay (sub + ship) ⟨"Walid", 500⟩ :=
  (checkout_all_or_nothing 0 initialStream demoStore ⟨"Walid", 500⟩ [⟨3, 2⟩]).2 _ _ _ _ _
    (checkout_eq_ok 0 initialStream demoStore ⟨"Walid", 500⟩ [⟨3, 2⟩] _ _ _ (by simp)
      (validateLoop_ok_of_pass 0 demoStore [⟨3, 2⟩] (by decide))
      (by norm_num [subSum, shipWeightSum, getP, demoStore]))

/-- C3: on a non-empty cart whose lines are all unexpired and within
stock, and which the customer can afford, checkout succeeds; the computed
subtotal is the sum of `unitPrice * qty` over all lines, the shipping
cost is `10` times the sum of `weight * qty` over the shippable lines,
and the customer's balance afterwards is the balance before minus
subtotal minus shipping. -/
theorem checkout_success_totals (now : ℤ) (st : StreamState) (s : Store)
    (customer : Customer) (cart : Cart)
    (hne : cart ≠ [])
    (hpass : ∀ it ∈ cart,
      (getP s it.pid).isExpired now = false ∧ it.qty ≤ (getP s it.pid).quantity)
    (hafford : subSum s cart + 10 * shipWeightSum s cart ≤ customer.balance) :
    validateLoop now s cart = .ok (subSum s cart, 10 * shipWeightSum s cart, shipList s cart)
    ∧ checkout now st s customer cart =
        .ok (applyReductions s cart,
             ⟨customer.name, customer.balance - subSum s cart - 10 * shipWeightSum s cart⟩,
             [], ⟨true, 2⟩,
             successOutput st s cart (subSum s cart) (10 * shipWeightSum s cart)
               (shipList s cart)
               ⟨customer.name, customer.balance - subSum s cart - 10 * shipWeightSum s cart⟩) := by
  have hv := validateLoop_ok_of_pass now s cart hpass
  have hpay : Customer.pay (subSum s cart + 10 * shipWeightSum s cart) customer =
      ⟨customer.name, customer.balance - subSum s cart - 10 * shipWeightSum s cart⟩ := by
    simp [Customer.pay, sub_add_eq_sub_sub]
  have h := checkout_eq_ok now st s customer cart _ _ _ hne hv (not_lt.mpr hafford)
  rw [hpay] at h
  exact ⟨hv, h⟩

/-- C3 witness: the end-to-end scenario of `main` — Cheese, Biscuits and a
Scratch Card for the customer with balance 1000 — instantiating the
success theorem (subtotal 300, shipping 9, final balance 691). -/
theorem checkout_success_totals_witness :
    validateLoop 0 demoStore [⟨0, 1⟩, ⟨1, 1⟩, ⟨3, 1⟩] =
      .ok (subSum demoStore [⟨0, 1⟩, ⟨1, 1⟩, ⟨3, 1⟩],
           10 * shipWeightSum demoStore [⟨0, 1⟩, ⟨1, 1⟩, ⟨3, 1⟩],
           shipList demoStore [⟨0, 1⟩, ⟨1, 1⟩, ⟨3, 1⟩])
    ∧ checkout 0 initialStream demoStore ⟨"Ibrahim", 1000⟩ [⟨0, 1⟩, ⟨1, 1⟩, ⟨3, 1⟩] =
        .ok (applyReductions demoStore [⟨0, 1⟩, ⟨1, 1⟩, ⟨3, 1⟩],
             ⟨"Ibrahim", 1000 - subSum demoStore [⟨0, 1⟩, ⟨1, 1⟩, ⟨3, 1⟩]
               - 10 * shipWeightSum demoStore [⟨0, 1⟩, ⟨1, 1⟩, ⟨3, 1⟩]⟩,
             [], ⟨true, 2⟩,
             successOutput initialStream demoStore [⟨0, 1⟩, ⟨1, 1⟩, ⟨3, 1⟩]
               (subSum demoStore [⟨0, 1⟩, ⟨1, 1⟩, ⟨3, 1⟩])
               (10 * shipWeightSum demoStore [⟨0, 1⟩, ⟨1, 1⟩, ⟨3, 1⟩])
               (shipList demoStore [⟨0, 1⟩, ⟨1, 1⟩, ⟨3, 1⟩])
               ⟨"Ibrahim", 1000 - subSum demoStore [⟨0, 1⟩, ⟨1, 1⟩, ⟨3, 1⟩]
                 - 10 * shipWeightSum demoStore [⟨0, 1⟩, ⟨1, 1⟩, ⟨3, 1⟩]⟩) :=
  checkout_success_totals 0 initialStream demoStore ⟨"Ibrahim", 1000⟩
    [⟨0, 1⟩, ⟨1, 1⟩, ⟨3, 1⟩] (by simp) (by decide)
    (by norm_num [subSum, shipWeightSum, getP, demoStore])

/-- C5: validation follows insertion order and the first failing check
determines the error. If every line before `bad` passes both checks, then:
when `bad`'s product is expired the whole checkout reports the expiry
error (even if `bad` also exceeds stock — expiry is checked first inside a
line), and when it is unexpired but over stock the stock error is
reported — in both cases for every customer (so a funds failure can never
preempt a line failure, the funds check running only after all lines) and
for every suffix after `bad` (no later line is examined). -/
theorem checkout_first_error_wins (now : ℤ) (st : StreamState) (s : Store)
    (customer : Customer) (pre : Cart) (bad : CartItem) (suf : Cart)
    (hpre : ∀ it ∈ pre,
      (getP s it.pid).isExpired now = false ∧ it.qty ≤ (getP s it.pid).quantity) :
    ((getP s bad.pid).isExpired now = true →
      checkout now st s customer (pre ++ bad :: suf) =
        .error ((getP s bad.pid).name ++ " is expired."))
    ∧ ((getP s bad.pid).isExpired now = false → (getP s bad.pid).quantity < bad.qty →
      checkout now st s customer (pre ++ bad :: suf) =
        .error ("Insufficient stock: " ++ (getP s bad.pid).name)) := by
  have hne : pre ++ bad :: suf ≠ [] := by simp
  constructor
  · intro hexp
    refine checkout_eq_error_of_validate now st s customer _ _ hne ?_
    refine validateLoop_append_error now s pre (bad :: suf) _ hpre ?_
    simp [validateLoop, hexp]
  · intro hexp hstock
    refine checkout_eq_error_of_validate now st s customer _ _ hne ?_
    refine validateLoop_append_error now s pre (bad :: suf) _ hpre ?_
    simp [validateLoop, hexp, hstock]

/-- C5 witness: after a passing Scratch-Card line, a Cheese line that is
both expired (time 200000 is past its expiry 86400) and over stock
(99 > 10) reports the expiry error, with a further TV line never examined
and a zero-balance customer whose funds failure is not reported. -/
theorem checkout_first_error_wins_witness :
    checkout 200000 initialStream demoStore ⟨"Poor", 0⟩ ([⟨3, 1⟩] ++ ⟨0, 99⟩ :: [⟨2, 1⟩]) =
      .error ((getP demoStore 0).name ++ " is expired.") :=
  (checkout_first_error_wins 200000 initialStream demoStore ⟨"Poor", 0⟩
    [⟨3, 1⟩] ⟨0, 99⟩ [⟨2, 1⟩] (by decide)).1 (by decide)

/-- C7: a successful checkout clears the cart, so an immediately repeated
checkout on the returned (cleared) cart — at any later time and in any
stream state — fails with the EmptyCart error. -/
theorem checkout_success_clears_cart (now now2 : ℤ) (st st2 : StreamState)
    (s : Store) (customer : Customer) (cart : Cart) (s' : Store) (customer' : Customer)
    (cart' : Cart) (st' : StreamState) (out : List OutTok)
    (h : checkout now st s customer cart = .ok (s', customer', cart', st', out)) :
    cart' = [] ∧ checkout now2 st2 s' customer' cart' = .error "Cart is empty." := by
  obtain ⟨hcart, -⟩ :=
    checkout_ok_inv now st s customer cart s' customer' cart' st' out h
  exact ⟨hcart, by rw [hcart]; rfl⟩

/-- C7 witness: a concrete successful purchase of one Scratch Card, after
which checking out the returned empty cart fails with the EmptyCart
error. -/
theorem checkout_success_clears_cart_witness :
    ([] : Cart) = []
    ∧ checkout 1 ⟨true, 2⟩
        (applyReductions demoStore [⟨3, 1⟩])
        (Customer.pay (subSum demoStore [⟨3, 1⟩] + 10 * shipWeightSum demoStore [⟨3, 1⟩])
          ⟨"Dina", 60⟩)
        [] = .error "Cart is empty." :=
  checkout_success_clears_cart 0 1 initialStream ⟨true, 2⟩ demoStore ⟨"Dina", 60⟩
    [⟨3, 1⟩] _ _ _ _ _
    (checkout_eq_ok 0 initialStream demoStore ⟨"Dina", 60⟩ [⟨3, 1⟩] _ _ _ (by simp)
      (validateLoop_ok_of_pass 0 demoStore [⟨3, 1⟩] (by decide))
      (by norm_num [subSum, shipWeightSum, getP, demoStore]))

/-- C8 (amended): the receipt's subtotal, shipping and amount figures are
printed under whatever formatting state the stream has when the receipt is
emitted — when a shipment notice preceded it, `fixed` with precision 1
(the notice's `setprecision(1)` persists on the stream); with no shippable
line, the stream's pre-checkout flags (for a fresh `std::cout`: not fixed,
precision 6). Only the closing customer-balance line is always printed
fixed to two decimal places. -/
theorem receipt_precision_follows_stream (now : ℤ) (st : StreamState) (s : Store)
    (customer : Customer) (cart : Cart) (s' : Store) (customer' : Customer) (cart' : Cart)
    (st' : StreamState) (out : List OutTok) (sub ship : ℚ) (lines : List (String × ℚ))
    (h : checkout now st s customer cart = .ok (s', customer', cart', st', out))
    (hv : validateLoop now s cart = .ok (sub, ship, lines)) :
    (lines ≠ [] →
      OutTok.num sub true 1 ∈ out ∧ OutTok.num ship true 1 ∈ out
        ∧ OutTok.num (sub + ship) true 1 ∈ out)
    ∧ (lines = [] →
      OutTok.num sub st.fixedFlag st.prec ∈ out ∧ OutTok.num ship st.fixedFlag st.prec ∈ out
        ∧ OutTok.num (sub + ship) st.fixedFlag st.prec ∈ out)
    ∧ OutTok.num customer'.balance true 2 ∈ out := by
  obtain ⟨-, -, sub₀, ship₀, lines₀, hv₀, hc, -, hout⟩ :=
    checkout_ok_inv now st s customer cart s' customer' cart' st' out h
  rw [hv] at hv₀
  simp only [Except.ok.injEq, Prod.mk.injEq] at hv₀
  obtain ⟨h1, h2, h3⟩ := hv₀
  subst h1; subst h2; subst h3; subst hout
  refine ⟨?_, ?_, ?_⟩
  · intro hl
    cases lines with
    | nil => exact absurd rfl hl
    | cons a t =>
      refine ⟨?_, ?_, ?_⟩ <;> simp [successOutput, shipItems, List.mem_append]
  · intro hl
    subst hl
    refine ⟨?_, ?_, ?_⟩ <;> simp [successOutput, List.mem_append]
  · cases lines with
    | nil => simp [successOutput, showBalance, List.mem_append]
    | cons a t => simp [successOutput, shipItems, showBalance, List.mem_append]

/-- C8 (amended) witness: buying one Cheese (shippable) from a fresh
stream, the subtotal, shipping and amount tokens all carry the
`(fixed, 1)` flags left behind by the shipment notice. -/
theorem receipt_precision_follows_stream_witness :
    OutTok.num (subSum demoStore [⟨0, 1⟩]) true 1
      ∈ successOutput initialStream demoStore [⟨0, 1⟩] (subSum demoStore [⟨0, 1⟩])
          (10 * shipWeightSum demoStore [⟨0, 1⟩]) (shipList demoStore [⟨0, 1⟩])
          (Customer.pay (subSum demoStore [⟨0, 1⟩] + 10 * shipWeightSum demoStore [⟨0, 1⟩])
            ⟨"Maha", 1000⟩)
    ∧ OutTok.num (10 * shipWeightSum demoStore [⟨0, 1⟩]) true 1
      ∈ successOutput initialStream demoStore [⟨0, 1⟩] (subSum demoStore [⟨0, 1⟩])
          (10 * shipWeightSum demoStore [⟨0, 1⟩]) (shipList demoStore [⟨0, 1⟩])
          (Customer.pay (subSum demoStore [⟨0, 1⟩] + 10 * shipWeightSum demoStore [⟨0, 1⟩])
            ⟨"Maha", 1000⟩)
    ∧ OutTok.num (subSum demoStore [⟨0, 1⟩] + 10 * shipWeightSum demoStore [⟨0, 1⟩]) true 1
      ∈ successOutput initialStream demoStore [⟨0, 1⟩] (subSum demoStore [⟨0, 1⟩])
          (10 * shipWeightSum demoStore [⟨0, 1⟩]) (shipList demoStore [⟨0, 1⟩])
          (Customer.pay (subSum demoStore [⟨0, 1⟩] + 10 * shipWeightSum demoStore [⟨0, 1⟩])
            ⟨"Maha", 1000⟩) :=
  (receipt_precision_follows_stream 0 initialStream demoStore ⟨"Maha", 1000⟩ [⟨0, 1⟩]
    _ _ _ _ _ _ _ _
    (checkout_eq_ok 0 initialStream demoStore ⟨"Maha", 1000⟩ [⟨0, 1⟩] _ _ _ (by simp)
      (validateLoop_ok_of_pass 0 demoStore [⟨0, 1⟩] (by decide))
      (by norm_num [subSum, shipWeightSum, getP, demoStore]))
    (validateLoop_ok_of_pass 0 demoStore [⟨0, 1⟩] (by decide))).1
    (by simp [shipList, getP, demoStore])

/-- C8 counterexample: in the end-to-end scenario of `main` (subtotal 300,
shipping 9, total 309, shipment notice emitted first) the subtotal is
printed as a `(fixed, precision 1)` number, and no token of the whole run
prints the subtotal, the shipping cost or the total with two decimal
places — refuting the claim that they are formatted to two decimals. -/
theorem receipt_precision_counterexample :
    subSum demoStore [⟨0, 1⟩, ⟨1, 1⟩, ⟨3, 1⟩] = 300
    ∧ 10 * shipWeightSum demoStore [⟨0, 1⟩, ⟨1, 1⟩, ⟨3, 1⟩] = 9
    ∧ OutTok.num 300 true 1 ∈ outputOf
        (checkout 0 initialStream demoStore ⟨"Nour", 1000⟩ [⟨0, 1⟩, ⟨1, 1⟩, ⟨3, 1⟩])
    ∧ OutTok.num 300 true 2 ∉ outputOf
        (checkout 0 initialStream demoStore ⟨"Nour", 1000⟩ [⟨0, 1⟩, ⟨1, 1⟩, ⟨3, 1⟩])
    ∧ OutTok.num 9 true 2 ∉ outputOf
        (checkout 0 initialStream demoStore ⟨"Nour", 1000⟩ [⟨0, 1⟩, ⟨1, 1⟩, ⟨3, 1⟩])
    ∧ OutTok.num 309 true 2 ∉ outputOf
        (checkout 0 initialStream demoStore ⟨"Nour", 1000⟩ [⟨0, 1⟩, ⟨1, 1⟩, ⟨3, 1⟩]) := by
  have hsub : subSum demoStore [⟨0, 1⟩, ⟨1, 1⟩, ⟨3, 1⟩] = 300 := by
    norm_num [subSum, getP, demoStore]
  have hship : 10 * shipWeightSum demoStore [⟨0, 1⟩, ⟨1, 1⟩, ⟨3, 1⟩] = 9 := by
    norm_num [shipWeightSum, getP, demoStore]
  have h := checkout_eq_ok 0 initialStream demoStore ⟨"Nour", 1000⟩
    [⟨0, 1⟩, ⟨1, 1⟩, ⟨3, 1⟩] _ _ _ (by simp)
    (validateLoop_ok_of_pass 0 demoStore [⟨0, 1⟩, ⟨1, 1⟩, ⟨3, 1⟩] (by decide))
    (by norm_num [subSum, shipWeightSum, getP, demoStore])
  have hout : outputOf
      (checkout 0 initialStream demoStore ⟨"Nour", 1000⟩ [⟨0, 1⟩, ⟨1, 1⟩, ⟨3, 1⟩]) =
      successOutput initialStream demoStore [⟨0, 1⟩, ⟨1, 1⟩, ⟨3, 1⟩]
        (subSum demoStore [⟨0, 1⟩, ⟨1, 1⟩, ⟨3, 1⟩])
        (10 * shipWeightSum demoStore [⟨0, 1⟩, ⟨1, 1⟩, ⟨3, 1⟩])
        (shipList demoStore [⟨0, 1⟩, ⟨1, 1⟩, ⟨3, 1⟩])
        (Customer.pay (subSum demoStore [⟨0, 1⟩, ⟨1, 1⟩, ⟨3, 1⟩]
          + 10 * shipWeightSum demoStore [⟨0, 1⟩, ⟨1, 1⟩, ⟨3, 1⟩]) ⟨"Nour", 1000⟩) := by
    rw [h]; rfl
  refine ⟨hsub, hship, ?_, ?_, ?_, ?_⟩ <;> rw [hout, hsub, hship] <;>
    simp [successOutput, shipItems, showBalance, receiptLines, shipList,
      Customer.pay, demoStore, getP, List.mem_append] <;> norm_num
